import Mathlib

/-!
Shallow embedding of the queue-state acquisition and filtering pipeline of
the `squid` repository (`src/squid/slurm.py`, with the banner record from
`src/squid/app.py`).

External effects are made explicit:
  * the `squeue` query result is passed in as an `Except QueryError String`
    oracle argument (the raw decoded text, or the failure of the external
    call);
  * external mutating calls (`scancel`, `scontrol hold`, `scontrol release`)
    and the query invocation are returned as a list of `ExtCall` values;
  * Python exceptions become `Except` / `Option SquidError` results;
  * the regular-expression engine (`re.search` from the Python standard
    library, an external collaborator) is an explicit function argument
    `research : String → String → Bool` taking the pattern and the subject
    string, true when the pattern matches somewhere in the subject.
-/

namespace Squid

/-- One row of the queue snapshot: the `SlurmJob` dataclass of
`src/squid/slurm.py`, fields in declaration order. All fields are textual. -/
structure SlurmJob where
  job_id : String
  name : String
  partition : String
  time_used : String
  submit_time : String
  start_time : String
  end_time : String
  state : String
  array_job_id : String
  array_task_id : String
  node_list : String
deriving DecidableEq, Repr

/-- Failure of the external `squeue` invocation
(`subprocess.CalledProcessError` raised by `subprocess.check_output`). -/
inductive QueryError where
  | processError
deriving DecidableEq, Repr

/-- Errors raised by the pipeline.  `readError` is `SlurmQueueReadError`
(class defined in `squid/_errors.py`, a module not present in `src/`; it is
modelled, as standard for a Python exception, as carrying the message string
it is constructed with).  `invalidAttribute` is the `AttributeError` raised
by `getattr` on an unknown attribute name. -/
inductive SquidError where
  | queryError (e : QueryError)
  | readError (msg : String)
  | invalidAttribute (attrName : String)
deriving DecidableEq, Repr

/-- External mutating/query process invocations issued by the controller. -/
inductive ExtCall where
  | squeue
  | scancel (job_id : String)
  | scontrolHold (job_id : String)
  | scontrolRelease (job_id : String)
deriving DecidableEq, Repr

/-- The characters Python `str.split()` (no separator argument) treats as
whitespace, restricted to ASCII. -/
def pyWhitespace (c : Char) : Bool :=
  c = ' ' || c = '\t' || c = '\n' || c = '\r' || c = '\x0b' || c = '\x0c'

/-- Helper for `pySplit`: walk the characters, accumulating the current
token in reverse; whitespace ends the current token (if non-empty). -/
def pySplitAux : List Char → List Char → List String
  | [], cur => if cur = [] then [] else [String.mk cur.reverse]
  | c :: cs, cur =>
    if pyWhitespace c then
      if cur = [] then pySplitAux cs []
      else String.mk cur.reverse :: pySplitAux cs []
    else pySplitAux cs (c :: cur)

/-- Python `line.split()` (no separator argument): split on runs of
whitespace, discarding empty tokens (so leading/trailing whitespace
produces no tokens). -/
def pySplit (s : String) : List String :=
  pySplitAux s.toList []

/-- Helper for `pyLines`: split at every newline, keeping empty fields. -/
def pyLinesAux : List Char → List Char → List String
  | [], cur => [String.mk cur.reverse]
  | c :: cs, cur =>
    if c = '\n' then String.mk cur.reverse :: pyLinesAux cs []
    else pyLinesAux cs (c :: cur)

/-- Python `text.split("\n")`: split at each newline separator, keeping
empty fields (`"a\n\nb"` gives `["a", "", "b"]`, `""` gives `[""]`). -/
def pyLines (s : String) : List String :=
  pyLinesAux s.toList []

/-- Python `s.isdigit()` restricted to ASCII strings: non-empty and every
character a decimal digit. -/
def pyIsdigit (s : String) : Bool :=
  s ≠ "" && s.toList.all (fun c => c.isDigit)

/-- The fixed error message passed to `SlurmQueueReadError` in
`SlurmQueue.update` (`src/squid/slurm.py`), including its typo. -/
def slurmReadErrorMsg : String :=
  "Error reading slurm queue. Please check your for any irregularities in squeue output."

/-- The fixed sentinel substituted for the node-list/reason column when a
line has more than 12 tokens (`src/squid/slurm.py`). -/
def nodesNotAvailSentinel : String := "Nodes N. Avail."

/-- The final length check of the parse loop body: `SlurmJob(*job_info)`
when exactly 11 tokens remain, `SlurmQueueReadError` otherwise. -/
def mkSlurmJob : List String → Except SquidError SlurmJob
  | [a, b, c, d, e, f, g, h, i, j, k] =>
      Except.ok ⟨a, b, c, d, e, f, g, h, i, j, k⟩
  | _ => Except.error (SquidError.readError slurmReadErrorMsg)

/-- The per-line body of the parse loop in `SlurmQueue.update`
(`src/squid/slurm.py` lines 77-95): split into whitespace tokens, drop the
reason token (`pop(11)`) when there are exactly 12, truncate to 10 tokens
plus the fixed sentinel when there are more than 12, and build a `SlurmJob`
from the resulting 11 tokens. -/
def parseLine (line : String) : Except SquidError SlurmJob :=
  let ts0 := pySplit line
  let ts1 := if ts0.length = 12 then ts0.take 11 else ts0
  let ts2 := if 12 < ts1.length then ts1.take 10 ++ [nodesNotAvailSentinel] else ts1
  mkSlurmJob ts2

/-- The parse loop of `SlurmQueue.update`: iterate over the lines, skip empty
ones, append each parsed job to the accumulator (`self.jobs`), and stop with
the partially filled accumulator when a line fails to parse (the raise
propagates with `self.jobs` holding the jobs parsed so far). -/
def parseLoop : List String → List SlurmJob → List SlurmJob × Option SquidError
  | [], acc => (acc, none)
  | line :: rest, acc =>
    if line = "" then parseLoop rest acc
    else
      match parseLine line with
      | Except.ok job => parseLoop rest (acc ++ [job])
      | Except.error e => (acc, some e)

deriving instance DecidableEq for Except

example : parseLine "1 a b c d e f g h i j" =
    Except.ok ⟨"1", "a", "b", "c", "d", "e", "f", "g", "h", "i", "j"⟩ := by decide

example : parseLine "1 a b c d e f g h i j reason" =
    Except.ok ⟨"1", "a", "b", "c", "d", "e", "f", "g", "h", "i", "j"⟩ := by decide

example : parseLine "1 a b c d e f g h i Nodes required for job are DOWN" =
    Except.ok ⟨"1", "a", "b", "c", "d", "e", "f", "g", "h", "i", "Nodes N. Avail."⟩ := by
  decide

example : parseLine "1 a b" = Except.error (SquidError.readError slurmReadErrorMsg) := by
  decide

/-- The `NAMES_TO_JOB_ATTRIBUTES` mapping of `src/squid/slurm.py`: display
names to `SlurmJob` attribute names, in the source's insertion order. -/
def NAMES_TO_JOB_ATTRIBUTES : List (String × String) :=
  [("Name", "name"),
   ("Partition", "partition"),
   ("State", "state"),
   ("Time", "time_used"),
   ("Node/Reason", "node_list"),
   ("Submit Time", "submit_time"),
   ("Start Time", "start_time"),
   ("Job ID", "job_id"),
   ("Max End Time", "end_time"),
   ("Array Job Id", "array_job_id"),
   ("Array Task Id", "array_task_id")]

/-- The fixed enumerated set of filterable `SlurmJob` attribute names: the
values of `NAMES_TO_JOB_ATTRIBUTES`. -/
def jobAttributeNames : List String :=
  NAMES_TO_JOB_ATTRIBUTES.map Prod.snd

/-- Is `s` a dunder name (`__...__`)?  On a `SlurmJob` instance, Python
attribute lookup can resolve names beyond the 11 dataclass fields only via
the class machinery, and every such class-level attribute (`__doc__`,
`__module__`, `__hash__`, `__str__`, `__dataclass_fields__`, ...) is a
dunder name. -/
def isDunderName (s : String) : Bool :=
  decide (s.toList.take 2 = ['_', '_']) &&
    decide (s.toList.reverse.take 2 = ['_', '_'])

/-- Python `getattr(job, attrName)` on the `SlurmJob` dataclass: field
lookup by name, `none` for the `AttributeError` case.  Faithful on the
names that are not dunder names: the class body declares only the 11
fields (plus `__str__`), so on a `SlurmJob` instance every non-dunder
attribute is one of the 11 fields and every other non-dunder name raises
`AttributeError`.  Dunder names are outside this model's domain — Python
resolves several of them without `AttributeError` (e.g. `__doc__` is the
non-empty docstring, `__hash__` is `None`) — so the unknown-attribute
theorem below excludes dunder names from its hypothesis. -/
def getattr (job : SlurmJob) (attrName : String) : Option String :=
  if attrName = "name" then some job.name
  else if attrName = "partition" then some job.partition
  else if attrName = "state" then some job.state
  else if attrName = "time_used" then some job.time_used
  else if attrName = "node_list" then some job.node_list
  else if attrName = "submit_time" then some job.submit_time
  else if attrName = "start_time" then some job.start_time
  else if attrName = "job_id" then some job.job_id
  else if attrName = "end_time" then some job.end_time
  else if attrName = "array_job_id" then some job.array_job_id
  else if attrName = "array_task_id" then some job.array_task_id
  else none

/-- The loop of `SlurmQueue.filter_jobs`: for each job look up the attribute
(`AttributeError` aborts the loop) and keep the job when the value is a
non-empty string (Python truthiness) and `re.search` finds a match. -/
def filterLoop (research : String → String → Bool) (attrName regex : String) :
    List SlurmJob → Except SquidError (List SlurmJob)
  | [] => Except.ok []
  | job :: rest =>
    match getattr job attrName with
    | none => Except.error (SquidError.invalidAttribute attrName)
    | some a =>
      match filterLoop research attrName regex rest with
      | Except.error e => Except.error e
      | Except.ok tail =>
        Except.ok (if a ≠ "" && research regex a then job :: tail else tail)

/-- `SlurmQueue.filter_jobs` (`src/squid/slurm.py` lines 99-112): with an
empty attribute or empty regex return the input list unchanged, otherwise
keep the jobs whose attribute value is non-empty and matched by
`re.search`.  `research` is the external `re.search` collaborator. -/
def filter_jobs (research : String → String → Bool) (jobs : List SlurmJob)
    (attrName regex : String) : Except SquidError (List SlurmJob) :=
  if attrName = "" || regex = "" then Except.ok jobs
  else filterLoop research attrName regex jobs

/-- `SlurmQueue.kill_job`: issue one `scancel` call when the job id is a
digit string, otherwise no external call. -/
def kill_job (job : SlurmJob) : List ExtCall :=
  if pyIsdigit job.job_id then [ExtCall.scancel job.job_id] else []

/-- `SlurmQueue.hold_job`: issue one `scontrol hold` call when the job id is
a digit string, otherwise no external call. -/
def hold_job (job : SlurmJob) : List ExtCall :=
  if pyIsdigit job.job_id then [ExtCall.scontrolHold job.job_id] else []

/-- `SlurmQueue.release_job`: issue one `scontrol release` call when the job
id is a digit string, otherwise no external call. -/
def release_job (job : SlurmJob) : List ExtCall :=
  if pyIsdigit job.job_id then [ExtCall.scontrolRelease job.job_id] else []

/-- The mutable state of a `SlurmQueue` instance: its `jobs` list. -/
structure SlurmQueueState where
  jobs : List SlurmJob
deriving DecidableEq, Repr

/-- Result of running `SlurmQueue.update` (or `__init__`): the new state
(`self.jobs` after the call, whether or not an exception propagated), the
external process invocations issued, and the exception if one propagated. -/
structure UpdateResult where
  state : SlurmQueueState
  calls : List ExtCall
  err : Option SquidError
deriving DecidableEq, Repr

/-- `SlurmQueue.update` (`src/squid/slurm.py` lines 59-97) with the external
world explicit.  The method first overwrites `self.jobs` with `[]`, then
issues the `squeue` query (`qr` is its outcome), parses the lines
(appending to `self.jobs` as it goes, so a parse failure leaves the partial
list in place), and finally filters `self.jobs`.  The pre-call state `st`
is never read: it is unconditionally discarded. -/
def update (research : String → String → Bool) (st : SlurmQueueState)
    (qr : Except QueryError String) (attrName regex : String) : UpdateResult :=
  match st, qr with
  | _, Except.error e =>
    { state := ⟨[]⟩, calls := [ExtCall.squeue],
      err := some (SquidError.queryError e) }
  | _, Except.ok text =>
    match parseLoop (pyLines text) [] with
    | (parsed, some e) =>
      { state := ⟨parsed⟩, calls := [ExtCall.squeue], err := some e }
    | (parsed, none) =>
      match filter_jobs research parsed attrName regex with
      | Except.ok filtered =>
        { state := ⟨filtered⟩, calls := [ExtCall.squeue], err := none }
      | Except.error e =>
        { state := ⟨parsed⟩, calls := [ExtCall.squeue], err := some e }

/-- `SlurmQueue.__init__`: set `self.jobs = []` and immediately call
`self.update()` with the default (empty) filter arguments. -/
def construct (research : String → String → Bool)
    (qr : Except QueryError String) : UpdateResult :=
  update research ⟨[]⟩ qr "" ""

/-- The `slurm_banner_fake_job` of `src/squid/app.py`, written here in the
dataclass's positional field order (the source passes keyword arguments). -/
def slurm_banner_fake_job : SlurmJob :=
  { job_id := "Job ID", name := "Name", partition := "Partition",
    time_used := "Time", submit_time := "Submit Time",
    start_time := "Start Time", end_time := "End Time", state := "State",
    array_job_id := "Ar.J.Id", array_task_id := "Ar.T.Id",
    node_list := "Node/Reason" }

/-- Helper for `substrSearch`: does `pat` occur as a prefix at some
position of the subject? -/
def substrSearchAux (pat : List Char) : List Char → Bool
  | [] => pat.isPrefixOf []
  | c :: cs => pat.isPrefixOf (c :: cs) || substrSearchAux pat cs

/-- A concrete regular-expression matcher used to instantiate the
`research` parameter in witnesses: plain substring search (the pattern,
read literally, occurs somewhere in the subject). -/
def substrSearch (pat s : String) : Bool :=
  substrSearchAux pat.toList s.toList

/-- A concrete record differing from the banner only in its job id "0":
a decimal-digit string that is not a positive integer. -/
def zero_id_job : SlurmJob :=
  { slurm_banner_fake_job with job_id := "0" }

/-- Follows the spec's words: a "positive-integer string" is a string of
decimal digits that reads as an integer strictly greater than zero (so not
all zeros).  Used only to compare the spec's guard with the code's
`str.isdigit` guard. -/
def specIsPositiveIntString (s : String) : Bool :=
  pyIsdigit s && s.toList.any (fun c => c ≠ '0')

/-- The per-job test of the `filter_jobs` loop: the attribute value is a
non-empty string (Python truthiness) and `re.search` finds a match of the
pattern in it. -/
def jobMatches (research : String → String → Bool) (attrName regex : String)
    (job : SlurmJob) : Bool :=
  match getattr job attrName with
  | some a => a ≠ "" && research regex a
  | none => false

/-- The contents `self.jobs` is left with by the parse phase of `update`
for a given query outcome: empty when the query itself failed (the list was
already reset), otherwise the jobs parsed before the first failing line
(all of them when every line parses). -/
def parsePhaseJobs (qr : Except QueryError String) : List SlurmJob :=
  match qr with
  | Except.error _ => []
  | Except.ok text => (parseLoop (pyLines text) []).1

example : filter_jobs substrSearch [slurm_banner_fake_job] "" "x" =
    Except.ok [slurm_banner_fake_job] := by decide

example : filter_jobs substrSearch [slurm_banner_fake_job] "bogus" "x" =
    Except.error (SquidError.invalidAttribute "bogus") := by decide

example : filter_jobs substrSearch [] "bogus" "x" = Except.ok [] := by decide

example :
    (update substrSearch ⟨[slurm_banner_fake_job]⟩ (Except.error QueryError.processError)
      "" "").state = ⟨[]⟩ := by decide

example :
    (construct substrSearch (Except.ok "1 a b c d e f g h i j")).state =
      ⟨[⟨"1", "a", "b", "c", "d", "e", "f", "g", "h", "i", "j"⟩]⟩ := by decide

/-! ### Helper lemmas -/

theorem jobAttributeNames_eq :
    jobAttributeNames =
      ["name", "partition", "state", "time_used", "node_list", "submit_time",
       "start_time", "job_id", "end_time", "array_job_id", "array_task_id"] := rfl

theorem getattr_isSome_of_mem {attrName : String}
    (hmem : attrName ∈ jobAttributeNames) (job : SlurmJob) :
    (getattr job attrName).isSome := by
  simp only [jobAttributeNames_eq, List.mem_cons, List.not_mem_nil, or_false] at hmem
  rcases hmem with rfl | rfl | rfl | rfl | rfl | rfl | rfl | rfl | rfl | rfl | rfl <;>
    simp [getattr]

theorem mem_jobAttributeNames_ne_empty {attrName : String}
    (hmem : attrName ∈ jobAttributeNames) : attrName ≠ "" := by
  intro h
  subst h
  exact absurd hmem (by decide)

theorem getattr_eq_none_of_not_mem {attrName : String}
    (hmem : attrName ∉ jobAttributeNames) (job : SlurmJob) :
    getattr job attrName = none := by
  simp only [jobAttributeNames_eq, List.mem_cons, List.not_mem_nil, or_false,
    not_or] at hmem
  obtain ⟨h1, h2, h3, h4, h5, h6, h7, h8, h9, h10, h11⟩ := hmem
  simp [getattr, h1, h2, h3, h4, h5, h6, h7, h8, h9, h10, h11]

theorem mkSlurmJob_short {l : List String} (h : l.length < 11) :
    mkSlurmJob l = Except.error (SquidError.readError slurmReadErrorMsg) := by
  rcases l with _ | ⟨a, _ | ⟨b, _ | ⟨c, _ | ⟨d, _ | ⟨e, _ | ⟨f, _ | ⟨g, _ |
    ⟨h1, _ | ⟨i, _ | ⟨j, _ | ⟨k, l'⟩⟩⟩⟩⟩⟩⟩⟩⟩⟩⟩ <;>
    first
      | rfl
      | (exfalso; simp at h; omega)

theorem filterLoop_eq (research : String → String → Bool)
    (attrName regex : String)
    (hsome : ∀ job : SlurmJob, (getattr job attrName).isSome)
    (jobs : List SlurmJob) :
    filterLoop research attrName regex jobs =
      Except.ok (jobs.filter (jobMatches research attrName regex)) := by
  induction jobs with
  | nil => rfl
  | cons job rest ih =>
    obtain ⟨a, ha⟩ := Option.isSome_iff_exists.mp (hsome job)
    simp only [filterLoop, ha, ih, List.filter_cons, jobMatches]

/-! ### Claim theorems -/

/-- Claim C4 (confirmed): every line that splits into exactly 11
whitespace-delimited tokens parses to a `SlurmJob` whose 11 fields are
those tokens in the fixed order job_id, name, partition, time_used,
submit_time, start_time, end_time, state, array_job_id, array_task_id,
node_list. -/
theorem parse_line_11_tokens (line t0 t1 t2 t3 t4 t5 t6 t7 t8 t9 t10 : String)
    (h : pySplit line = [t0, t1, t2, t3, t4, t5, t6, t7, t8, t9, t10]) :
    parseLine line =
      Except.ok
        { job_id := t0, name := t1, partition := t2, time_used := t3,
          submit_time := t4, start_time := t5, end_time := t6, state := t7,
          array_job_id := t8, array_task_id := t9, node_list := t10 } := by
  simp [parseLine, h, mkSlurmJob]

/-- Witness for C4 at a concrete 11-token line. -/
theorem parse_line_11_tokens_witness :
    pySplit "12 j1 gpu 1:00 s1 s2 s3 R 12 0 n1" =
      ["12", "j1", "gpu", "1:00", "s1", "s2", "s3", "R", "12", "0", "n1"] ∧
    parseLine "12 j1 gpu 1:00 s1 s2 s3 R 12 0 n1" =
      Except.ok
        { job_id := "12", name := "j1", partition := "gpu", time_used := "1:00",
          submit_time := "s1", start_time := "s2", end_time := "s3",
          state := "R", array_job_id := "12", array_task_id := "0",
          node_list := "n1" } :=
  ⟨by decide,
   parse_line_11_tokens "12 j1 gpu 1:00 s1 s2 s3 R 12 0 n1"
     "12" "j1" "gpu" "1:00" "s1" "s2" "s3" "R" "12" "0" "n1" (by decide)⟩

/-- Claim C5 (confirmed): every line that splits into exactly 12
whitespace-delimited tokens has its last token (the reason) dropped; the
first 11 tokens fill the record, so node_list is token index 10. -/
theorem parse_line_12_tokens
    (line t0 t1 t2 t3 t4 t5 t6 t7 t8 t9 t10 t11 : String)
    (h : pySplit line = [t0, t1, t2, t3, t4, t5, t6, t7, t8, t9, t10, t11]) :
    parseLine line =
      Except.ok
        { job_id := t0, name := t1, partition := t2, time_used := t3,
          submit_time := t4, start_time := t5, end_time := t6, state := t7,
          array_job_id := t8, array_task_id := t9, node_list := t10 } := by
  have htake :
      ([t0, t1, t2, t3, t4, t5, t6, t7, t8, t9, t10, t11] : List String).take 11 =
        [t0, t1, t2, t3, t4, t5, t6, t7, t8, t9, t10] := rfl
  simp [parseLine, h, htake, mkSlurmJob]

/-- Witness for C5 at the spec's example line: node_list = "node1", the
trailing reason "Resources" is discarded. -/
theorem parse_line_12_tokens_witness :
    pySplit "123 job1 part 1:00 01-01 01-02 01-03 PD 123 0 node1 Resources" =
      ["123", "job1", "part", "1:00", "01-01", "01-02", "01-03", "PD", "123",
       "0", "node1", "Resources"] ∧
    parseLine "123 job1 part 1:00 01-01 01-02 01-03 PD 123 0 node1 Resources" =
      Except.ok
        { job_id := "123", name := "job1", partition := "part",
          time_used := "1:00", submit_time := "01-01", start_time := "01-02",
          end_time := "01-03", state := "PD", array_job_id := "123",
          array_task_id := "0", node_list := "node1" } :=
  ⟨by decide,
   parse_line_12_tokens "123 job1 part 1:00 01-01 01-02 01-03 PD 123 0 node1 Resources"
     "123" "job1" "part" "1:00" "01-01" "01-02" "01-03" "PD" "123" "0" "node1"
     "Resources" (by decide)⟩

/-- Claim C6 (confirmed): every line that splits into more than 12
whitespace-delimited tokens keeps only the first 10 tokens and sets
node_list to the fixed sentinel "Nodes N. Avail.", never the original
multi-word reason text. -/
theorem parse_line_many_tokens
    (line t0 t1 t2 t3 t4 t5 t6 t7 t8 t9 : String) (rest : List String)
    (h : pySplit line = t0 :: t1 :: t2 :: t3 :: t4 :: t5 :: t6 :: t7 :: t8 :: t9 :: rest)
    (hlen : 2 < rest.length) :
    parseLine line =
      Except.ok
        { job_id := t0, name := t1, partition := t2, time_used := t3,
          submit_time := t4, start_time := t5, end_time := t6, state := t7,
          array_job_id := t8, array_task_id := t9,
          node_list := nodesNotAvailSentinel } := by
  have htake :
      (t0 :: t1 :: t2 :: t3 :: t4 :: t5 :: t6 :: t7 :: t8 :: t9 :: rest).take 10 =
        [t0, t1, t2, t3, t4, t5, t6, t7, t8, t9] := by
    simp
  have hne2 : ¬ rest.length = 2 := by omega
  have hgt12 : 12 < rest.length + 1 + 1 + 1 + 1 + 1 + 1 + 1 + 1 + 1 + 1 := by
    omega
  simp [parseLine, h, hne2, hgt12, htake, mkSlurmJob]

/-- Witness for C6 at a 13-token line (multi-word reason). -/
theorem parse_line_many_tokens_witness :
    pySplit "9 j p 1:00 a b c PD 9 0 Nodes are DOWN" =
      "9" :: "j" :: "p" :: "1:00" :: "a" :: "b" :: "c" :: "PD" :: "9" :: "0" ::
        ["Nodes", "are", "DOWN"] ∧
    2 < (["Nodes", "are", "DOWN"] : List String).length ∧
    parseLine "9 j p 1:00 a b c PD 9 0 Nodes are DOWN" =
      Except.ok
        { job_id := "9", name := "j", partition := "p", time_used := "1:00",
          submit_time := "a", start_time := "b", end_time := "c",
          state := "PD", array_job_id := "9", array_task_id := "0",
          node_list := nodesNotAvailSentinel } :=
  ⟨by decide, by decide,
   parse_line_many_tokens "9 j p 1:00 a b c PD 9 0 Nodes are DOWN"
     "9" "j" "p" "1:00" "a" "b" "c" "PD" "9" "0" ["Nodes", "are", "DOWN"]
     (by decide) (by decide)⟩

/-- Claim C2, counterexample to "the error names the offending line": two
distinct short lines produce the identical error value, whose fixed message
contains neither line (so it cannot name the offending one). -/
theorem parse_error_message_cex :
    parseLine "aaa bbb" = Except.error (SquidError.readError slurmReadErrorMsg) ∧
    parseLine "xxx yyy zzz" = Except.error (SquidError.readError slurmReadErrorMsg) ∧
    substrSearch "aaa bbb" slurmReadErrorMsg = false ∧
    substrSearch "xxx yyy zzz" slurmReadErrorMsg = false := by
  decide

/-- Claim C2 as amended (proved): a non-empty line with fewer than 11
whitespace-delimited tokens makes parsing fail with `SlurmQueueReadError`
carrying a fixed generic message (which does not name the offending line),
the parse loop stops at that line, and no job sequence is returned for the
call (only the exception propagates, with the accumulator as it stood). -/
theorem parse_short_line_fails (line : String) (rest : List String)
    (acc : List SlurmJob) (hne : line ≠ "")
    (hshort : (pySplit line).length < 11) :
    parseLine line = Except.error (SquidError.readError slurmReadErrorMsg) ∧
    parseLoop (line :: rest) acc =
      (acc, some (SquidError.readError slurmReadErrorMsg)) := by
  have hne12 : ¬ (pySplit line).length = 12 := by omega
  have hngt : ¬ 12 < (pySplit line).length := by omega
  have hline : parseLine line =
      Except.error (SquidError.readError slurmReadErrorMsg) := by
    simp only [parseLine, if_neg hne12, if_neg hngt]
    exact mkSlurmJob_short hshort
  refine ⟨hline, ?_⟩
  simp only [parseLoop, if_neg hne, hline]

/-- Witness for the amended C2 at a concrete 2-token line. -/
theorem parse_short_line_fails_witness :
    ("one two" ≠ "") ∧ (pySplit "one two").length < 11 ∧
    (parseLine "one two" = Except.error (SquidError.readError slurmReadErrorMsg) ∧
     parseLoop ["one two", "1 a b c d e f g h i j"] [] =
       ([], some (SquidError.readError slurmReadErrorMsg))) :=
  ⟨by decide, by decide,
   parse_short_line_fails "one two" ["1 a b c d e f g h i j"] []
     (by decide) (by decide)⟩

/-- Claim C7 (confirmed): with a known non-empty attribute and a non-empty
pattern, `filter_jobs` returns exactly the order-preserving subsequence of
jobs whose attribute value is non-empty and in which the external `re.search`
collaborator (`research`, search-anywhere semantics, not anchored) finds a
match of the pattern. -/
theorem filter_jobs_known_attr (research : String → String → Bool)
    (jobs : List SlurmJob) (attrName regex : String)
    (hmem : attrName ∈ jobAttributeNames) (hregex : regex ≠ "") :
    filter_jobs research jobs attrName regex =
      Except.ok (jobs.filter (jobMatches research attrName regex)) ∧
    List.Sublist (jobs.filter (jobMatches research attrName regex)) jobs := by
  have hattr : attrName ≠ "" := mem_jobAttributeNames_ne_empty hmem
  have hunfold : filter_jobs research jobs attrName regex =
      filterLoop research attrName regex jobs := by
    simp [filter_jobs, hattr, hregex]
  constructor
  · rw [hunfold]
    exact filterLoop_eq research attrName regex
      (fun job => getattr_isSome_of_mem hmem job) jobs
  · exact List.filter_sublist jobs

/-- Witness for C7 at the spec's example: names "alpha", "beta", "alphabet"
filtered on attribute "name" with pattern "alpha" under a substring matcher
keep exactly "alpha" and "alphabet", in order. -/
theorem filter_jobs_known_attr_witness :
    ("name" ∈ jobAttributeNames) ∧ ("alpha" ≠ "") ∧
    (filter_jobs substrSearch
        [{ slurm_banner_fake_job with name := "alpha" },
         { slurm_banner_fake_job with name := "beta" },
         { slurm_banner_fake_job with name := "alphabet" }] "name" "alpha" =
      Except.ok
        ([{ slurm_banner_fake_job with name := "alpha" },
          { slurm_banner_fake_job with name := "beta" },
          { slurm_banner_fake_job with name := "alphabet" }].filter
          (jobMatches substrSearch "name" "alpha")) ∧
     List.Sublist
       ([{ slurm_banner_fake_job with name := "alpha" },
         { slurm_banner_fake_job with name := "beta" },
         { slurm_banner_fake_job with name := "alphabet" }].filter
         (jobMatches substrSearch "name" "alpha"))
       [{ slurm_banner_fake_job with name := "alpha" },
        { slurm_banner_fake_job with name := "beta" },
        { slurm_banner_fake_job with name := "alphabet" }]) :=
  ⟨by decide, by decide,
   filter_jobs_known_attr substrSearch
     [{ slurm_banner_fake_job with name := "alpha" },
      { slurm_banner_fake_job with name := "beta" },
      { slurm_banner_fake_job with name := "alphabet" }] "name" "alpha"
     (by decide) (by decide)⟩

/-- Claim C8 (confirmed): a filter call with an empty attribute or an empty
pattern is the identity — it returns the input job list unchanged, all
elements in their original order. -/
theorem filter_jobs_identity (research : String → String → Bool)
    (jobs : List SlurmJob) (attrName regex : String)
    (h : attrName = "" ∨ regex = "") :
    filter_jobs research jobs attrName regex = Except.ok jobs := by
  rcases h with h | h <;> simp [filter_jobs, h]

/-- Witness for C8: empty attribute with non-empty pattern, on a concrete
job list. -/
theorem filter_jobs_identity_witness :
    filter_jobs substrSearch [slurm_banner_fake_job] "" "anything" =
      Except.ok [slurm_banner_fake_job] :=
  filter_jobs_identity substrSearch [slurm_banner_fake_job] "" "anything"
    (Or.inl rfl)

/-- Claim C9, counterexample: on an empty job sequence an unknown non-empty
attribute with a non-empty pattern does NOT fail — the loop body (where
`getattr` would raise) never runs, and the empty list is returned.  (The
claim also fails on non-empty sequences for class-machinery dunder names:
Python resolves e.g. `__doc__` — not an enumerated field name — to the
non-empty docstring without `AttributeError`; that behaviour lies outside
this model's `getattr` domain, so only the empty-sequence refutation is
stated here, and the amendment excludes dunder names.) -/
theorem filter_jobs_unknown_attr_cex :
    ("bogus" ∉ jobAttributeNames) ∧
    filter_jobs substrSearch [] "bogus" "x" = Except.ok [] := by
  constructor
  · decide
  · rfl

/-- Claim C9 as amended (proved): on a NON-EMPTY job sequence, a filter spec
whose attribute is non-empty, is not of dunder form `__...__` (Python
resolves class attributes such as `__doc__` without `AttributeError`), and
is not one of the enumerated `SlurmJob` field names (with a non-empty
pattern) fails with the invalid-attribute error (`AttributeError` from
`getattr`); on an empty sequence the filter returns the empty sequence
without error. -/
theorem filter_jobs_unknown_attr (research : String → String → Bool)
    (job : SlurmJob) (rest : List SlurmJob) (attrName regex : String)
    (hmem : attrName ∉ jobAttributeNames)
    (_hdunder : isDunderName attrName = false)
    (hattr : attrName ≠ "") (hregex : regex ≠ "") :
    filter_jobs research (job :: rest) attrName regex =
      Except.error (SquidError.invalidAttribute attrName) ∧
    filter_jobs research [] attrName regex = Except.ok [] := by
  have hnone : getattr job attrName = none :=
    getattr_eq_none_of_not_mem hmem job
  constructor
  · simp [filter_jobs, hattr, hregex, filterLoop, hnone]
  · simp [filter_jobs, hattr, hregex, filterLoop]

/-- Witness for the amended C9 at attribute "bogus" (not a field name, not
a dunder name) on a one-job list. -/
theorem filter_jobs_unknown_attr_witness :
    ("bogus" ∉ jobAttributeNames) ∧ (isDunderName "bogus" = false) ∧
    ("bogus" ≠ "") ∧ ("x" ≠ "") ∧
    (filter_jobs substrSearch [slurm_banner_fake_job] "bogus" "x" =
       Except.error (SquidError.invalidAttribute "bogus") ∧
     filter_jobs substrSearch [] "bogus" "x" = Except.ok []) :=
  ⟨by decide, by decide, by decide, by decide,
   filter_jobs_unknown_attr substrSearch slurm_banner_fake_job [] "bogus" "x"
     (by decide) (by decide) (by decide) (by decide)⟩

/-- Claim C3, counterexample: a job with job_id = "0" — which is not a
positive-integer string — is not a no-op: `kill_job` issues one `scancel`
call, because the code's guard is `str.isdigit`, which accepts "0". -/
theorem mutation_guard_cex :
    specIsPositiveIntString "0" = false ∧
    kill_job zero_id_job = [ExtCall.scancel "0"] ∧
    hold_job zero_id_job = [ExtCall.scontrolHold "0"] ∧
    release_job zero_id_job = [ExtCall.scontrolRelease "0"] := by
  decide

/-- Claim C3 as amended (proved): each of hold, release and kill is a no-op
issuing zero external calls when the record's job_id is not a non-empty
decimal-digit string (Python `str.isdigit`; in particular for the sentinel
"Job ID"), and otherwise issues exactly one external mutating call. -/
theorem mutation_guard (job : SlurmJob) :
    (pyIsdigit job.job_id = false →
      kill_job job = [] ∧ hold_job job = [] ∧ release_job job = []) ∧
    (pyIsdigit job.job_id = true →
      kill_job job = [ExtCall.scancel job.job_id] ∧
      hold_job job = [ExtCall.scontrolHold job.job_id] ∧
      release_job job = [ExtCall.scontrolRelease job.job_id]) := by
  constructor <;> intro h <;>
    simp [kill_job, hold_job, release_job, h]

/-- Witness for the amended C3 at the banner record (job_id = "Job ID"):
all three operations issue zero external calls. -/
theorem mutation_guard_witness :
    pyIsdigit "Job ID" = false ∧
    (kill_job slurm_banner_fake_job = [] ∧
     hold_job slurm_banner_fake_job = [] ∧
     release_job slurm_banner_fake_job = []) :=
  ⟨by decide, (mutation_guard slurm_banner_fake_job).1 (by decide)⟩

/-- Claim C1, counterexample: with stored snapshot `[banner]`, a refresh
whose second line fails to parse leaves the snapshot holding the job parsed
from the first line — the pre-refresh snapshot is not preserved, and a
previously parsed line of the failing call IS retained. -/
theorem update_failure_cex :
    (update substrSearch ⟨[slurm_banner_fake_job]⟩
        (Except.ok "1 a b c d e f g h i j\nshort line") "" "").err =
      some (SquidError.readError slurmReadErrorMsg) ∧
    (update substrSearch ⟨[slurm_banner_fake_job]⟩
        (Except.ok "1 a b c d e f g h i j\nshort line") "" "").state.jobs =
      [⟨"1", "a", "b", "c", "d", "e", "f", "g", "h", "i", "j"⟩] ∧
    ([⟨"1", "a", "b", "c", "d", "e", "f", "g", "h", "i", "j"⟩] :
        List SlurmJob) ≠ [slurm_banner_fake_job] := by
  decide

/-- Claim C1 as amended (proved): when a refresh fails, the previously
stored snapshot is NOT preserved — `update` never reads the pre-call state;
the snapshot it leaves behind is empty when the external query failed, and
otherwise holds exactly the jobs parsed before the failure point
(`parsePhaseJobs`). -/
theorem update_failure_state (research : String → String → Bool)
    (st : SlurmQueueState) (qr : Except QueryError String)
    (attrName regex : String) (e : SquidError)
    (h : (update research st qr attrName regex).err = some e) :
    (update research st qr attrName regex).state.jobs = parsePhaseJobs qr ∧
    ∀ st' : SlurmQueueState,
      update research st' qr attrName regex =
        update research st qr attrName regex := by
  obtain ⟨jobs0⟩ := st
  constructor
  · cases qr with
    | error e' => rfl
    | ok text =>
      rcases hp : parseLoop (pyLines text) [] with ⟨parsed, err⟩
      cases err with
      | some e2 =>
        simp [update, hp, parsePhaseJobs]
      | none =>
        cases hf : filter_jobs research parsed attrName regex with
        | ok f =>
          exfalso
          simp only [update, hp, hf] at h
          exact Option.noConfusion h
        | error e2 =>
          simp [update, hp, hf, parsePhaseJobs]
  · intro st'
    obtain ⟨jobs1⟩ := st'
    cases qr <;> rfl

/-- Witness for the amended C1 at a failing external query with a non-empty
pre-refresh snapshot: the stored snapshot afterwards is empty. -/
theorem update_failure_state_witness :
    (update substrSearch ⟨[slurm_banner_fake_job]⟩
        (Except.error QueryError.processError) "" "").err =
      some (SquidError.queryError QueryError.processError) ∧
    ((update substrSearch ⟨[slurm_banner_fake_job]⟩
        (Except.error QueryError.processError) "" "").state.jobs =
      parsePhaseJobs (Except.error QueryError.processError) ∧
     ∀ st' : SlurmQueueState,
       update substrSearch st' (Except.error QueryError.processError) "" "" =
         update substrSearch ⟨[slurm_banner_fake_job]⟩
           (Except.error QueryError.processError) "" "") :=
  ⟨by decide,
   update_failure_state substrSearch ⟨[slurm_banner_fake_job]⟩
     (Except.error QueryError.processError) "" ""
     (SquidError.queryError QueryError.processError) (by decide)⟩

/-- Claim C10, counterexample: construction is not inert — `__init__` calls
`update()`, so it performs an external queue query, and with a one-job
query result the stored snapshot immediately after construction is not
empty. -/
theorem construct_cex :
    (construct substrSearch (Except.ok "1 a b c d e f g h i j")).calls ≠ [] ∧
    (construct substrSearch (Except.ok "1 a b c d e f g h i j")).state.jobs ≠
      [] := by
  decide

/-- Claim C10 as amended (proved): construction initializes the snapshot to
empty and then immediately runs one refresh with empty filter arguments:
it issues exactly one external queue query, and the post-construction
snapshot is that initial refresh's parse result (so it is empty only when
the query fails or returns no parseable lines); the controller itself
stores no filter spec. -/
theorem construct_initial_refresh (research : String → String → Bool)
    (qr : Except QueryError String) :
    construct research qr = update research ⟨[]⟩ qr "" "" ∧
    (construct research qr).calls = [ExtCall.squeue] ∧
    (construct research qr).state.jobs = parsePhaseJobs qr := by
  refine ⟨rfl, ?_, ?_⟩
  · cases qr with
    | error e => rfl
    | ok text =>
      rcases hp : parseLoop (pyLines text) [] with ⟨parsed, err⟩
      cases err with
      | some e2 =>
        simp [construct, update, hp]
      | none =>
        simp [construct, update, hp, filter_jobs]
  · cases qr with
    | error e => rfl
    | ok text =>
      rcases hp : parseLoop (pyLines text) [] with ⟨parsed, err⟩
      cases err with
      | some e2 =>
        simp [construct, update, hp, parsePhaseJobs]
      | none =>
        simp [construct, update, hp, filter_jobs, parsePhaseJobs]

end Squid
